import Mathlib

/-!
Verification of the expression-construction and function-resolution layer
(`src/functions.rs` of the datafusion Python bindings).

Shallow embedding conventions:

* `PyExpr` is a transparent wrapper around the engine's `Expr` in the source;
  the `.into()` conversions between them are identities, so the embedding
  identifies the two and works directly with `DF.Expr`.
* Builders that return `PyResult` but can only ever return `Ok` (such as
  `alias`, `order_by`, `col`, `count_star`) are embedded as total functions;
  `window`, which can fail, returns `Except DataFusionError DF.Expr`.
* Types that the source file uses but that live outside the observed file
  (the engine's `find_df_window_func`, the session registry's `udaf` lookup,
  `PyWindowFrame::new`, the error enum) are modelled from the specification;
  each such definition carries a doc comment starting with
  `Modelled from the spec:`.
-/

namespace DF

/-- Table references only occur as `None` in this layer; a bare name suffices. -/
structure TableReference where
  name : String
deriving DecidableEq

/-- Scalar literal values: the layer only ever builds integer literals
(`lit(1)` in `count_star`) and string literals (the separator of `concat_ws`). -/
inductive ScalarValue where
  | int32 (v : Option Int)
  | utf8 (v : Option String)
deriving DecidableEq

/-- Builtin scalar operation tags, exactly the tags named by the
`scalar_function!` invocations of the source file. -/
inductive BuiltinScalarFunction where
  | Abs | Acos | Acosh | Ascii | Asin | Asinh | Atan | Atanh | Atan2 | BitLength
  | Btrim | Cbrt | Ceil | CharacterLength | Chr | Coalesce | Cos | Cosh
  | Degrees | Exp | Factorial | Floor | Gcd | InitCap | Iszero | Lcm | Left
  | Ln | Log | Log10 | Log2 | Lower | Lpad | Ltrim | MD5 | Nanvl | OctetLength
  | Pi | Power | Radians | RegexpMatch | RegexpReplace | Repeat | Replace
  | Reverse | Right | Round | Rpad | Rtrim | SHA224 | SHA256 | SHA384 | SHA512
  | Signum | Sin | Sinh | SplitPart | Sqrt | StartsWith | Strpos | Substr
  | Tan | Tanh | ToHex | Now | ToTimestamp | ToTimestampMillis
  | ToTimestampMicros | ToTimestampSeconds | CurrentDate | CurrentTime
  | DatePart | DateTrunc | DateBin | Translate | Trim | Trunc | Upper
  | MakeArray | Range | Uuid | Struct | FromUnixtime | ArrowTypeof | Random
  | ArrayAppend | ArrayConcat | ArrayDims | ArrayDistinct | ArrayElement
  | ArrayLength | ArrayHas | ArrayHasAll | ArrayHasAny | ArrayPosition
  | ArrayPositions | ArrayNdims | ArrayPrepend | ArrayPopBack | ArrayPopFront
  | ArrayRemove | ArrayRemoveN | ArrayRemoveAll | ArrayRepeat | ArrayReplace
  | ArrayReplaceN | ArrayReplaceAll | ArraySlice | ArrayIntersect | ArrayUnion
  | ArrayExcept | ArrayResize | Flatten
deriving DecidableEq

/-- Builtin aggregate operation tags, exactly the tags named by the
`aggregate_function!` invocations of the source file. -/
inductive AggregateFunction where
  | ApproxDistinct | ApproxMedian | ApproxPercentileCont
  | ApproxPercentileContWithWeight | ArrayAgg | Avg | Correlation | Count
  | Covariance | CovariancePop | Grouping | Max | Median | Min | Sum
  | Stddev | StddevPop | Variance | VariancePop | RegrAvgx | RegrAvgy
  | RegrCount | RegrIntercept | RegrR2 | RegrSlope | RegrSXX | RegrSXY
  | RegrSYY | FirstValue | LastValue | BitAnd | BitOr | BitXor | BoolAnd
  | BoolOr
deriving DecidableEq

/-- Resolved scalar function definition (only the builtin variant is
reachable from this layer's constructors). -/
inductive ScalarFunctionDefinition where
  | builtIn (f : BuiltinScalarFunction)
deriving DecidableEq

/-- Resolved aggregate function definition (only the builtin variant is
reachable from this layer's constructors). -/
inductive AggregateFunctionDefinition where
  | builtIn (f : AggregateFunction)
deriving DecidableEq

/-- Handle to a user-registered aggregate function held by the session
registry; opaque to this layer, identified by its registered name. -/
structure AggregateUDF where
  name : String
deriving DecidableEq

/-- Builtin window function tags recognised by the engine's window-name
lookup. -/
inductive BuiltInWindowFunction where
  | RowNumber | Rank | DenseRank | PercentRank | CumeDist | Ntile | Lag
  | Lead | FirstValue | LastValue | NthValue
deriving DecidableEq

/-- Resolved window function definition: either an engine builtin or a
user-defined aggregate adapted into a window function. -/
inductive WindowFunctionDefinition where
  | builtInWindowFunction (f : BuiltInWindowFunction)
  | aggregateUDF (u : AggregateUDF)
deriving DecidableEq

/-- Window frame units. -/
inductive WindowFrameUnits where
  | Rows | Range | Groups
deriving DecidableEq

/-- Window frame bound. A `none` offset is an unspecified (unbounded)
distance, a `some n` offset is a concrete row/range distance. -/
inductive WindowFrameBound where
  | Preceding (offset : Option Nat)
  | CurrentRow
  | Following (offset : Option Nat)
deriving DecidableEq

/-- Resolved window frame: unit plus concrete start and end bounds. -/
structure WindowFrame where
  units : WindowFrameUnits
  startBound : WindowFrameBound
  endBound : WindowFrameBound
deriving DecidableEq

/-- Expression tree nodes built by this layer. -/
inductive Expr where
  | column (relation : Option TableReference) (name : String)
  | literal (v : ScalarValue)
  | alias (e : Expr) (relation : Option TableReference) (name : String)
  | sort (e : Expr) (asc : Bool) (nullsFirst : Bool)
  | scalarFunction (funcDef : ScalarFunctionDefinition) (args : List Expr)
  | aggregateFunction (funcDef : AggregateFunctionDefinition) (args : List Expr)
      (distinct : Bool) (filter : Option Expr) (orderBy : Option (List Expr))
  | windowFunction (funcDef : WindowFunctionDefinition) (args : List Expr)
      (partitionBy : List Expr) (orderBy : List Expr) (windowFrame : WindowFrame)
  | inList (e : Expr) (list : List Expr) (negated : Bool)

/-- The engine's `lit` helper at an integer argument: `lit(1)` produces an
`Int32` literal node. -/
def lit (n : Int) : Expr :=
  Expr.literal (ScalarValue.int32 (some n))

/-- The engine's `in_list` helper: wraps the operand, candidate list and
negation flag into an `InList` node. -/
def in_list (e : Expr) (list : List Expr) (negated : Bool) : Expr :=
  Expr.inList e list negated

/-- Modelled from the spec: the engine's `find_df_window_func`, a lookup in
the fixed, closed set of builtin window function names. Only its shape
(a name either resolves to a builtin definition or not) matters to the
claims; the set itself follows the standard builtin window functions. -/
def find_df_window_func (name : String) : Option WindowFunctionDefinition :=
  match name with
  | "row_number" => some (WindowFunctionDefinition.builtInWindowFunction BuiltInWindowFunction.RowNumber)
  | "rank" => some (WindowFunctionDefinition.builtInWindowFunction BuiltInWindowFunction.Rank)
  | "dense_rank" => some (WindowFunctionDefinition.builtInWindowFunction BuiltInWindowFunction.DenseRank)
  | "percent_rank" => some (WindowFunctionDefinition.builtInWindowFunction BuiltInWindowFunction.PercentRank)
  | "cume_dist" => some (WindowFunctionDefinition.builtInWindowFunction BuiltInWindowFunction.CumeDist)
  | "ntile" => some (WindowFunctionDefinition.builtInWindowFunction BuiltInWindowFunction.Ntile)
  | "lag" => some (WindowFunctionDefinition.builtInWindowFunction BuiltInWindowFunction.Lag)
  | "lead" => some (WindowFunctionDefinition.builtInWindowFunction BuiltInWindowFunction.Lead)
  | "first_value" => some (WindowFunctionDefinition.builtInWindowFunction BuiltInWindowFunction.FirstValue)
  | "last_value" => some (WindowFunctionDefinition.builtInWindowFunction BuiltInWindowFunction.LastValue)
  | "nth_value" => some (WindowFunctionDefinition.builtInWindowFunction BuiltInWindowFunction.NthValue)
  | _ => none

end DF

namespace functions

/-- Modelled from the spec: the error type of this layer. The spec's
`FunctionNotFound` failure is represented, as in the bindings, by the
common error variant carrying the message text. -/
inductive DataFusionError where
  | Common (msg : String)
deriving DecidableEq

/-- Modelled from the spec: a session handle owning the User Function
Registry, here the finite map from registered names to user-defined
aggregate handles. -/
structure SessionContext where
  udafs : List (String × DF.AggregateUDF)

/-- Modelled from the spec: the registry lookup `lookup_user_defined(name)`,
returning the registered aggregate or a not-found error. -/
def SessionContext.udaf (ctx : SessionContext) (name : String) :
    Except DataFusionError DF.AggregateUDF :=
  match ctx.udafs.lookup name with
  | some u => Except.ok u
  | none => Except.error (DataFusionError.Common ("aggregate function not found"))

/-- Modelled from the spec: `PyWindowFrame::new(units, start_bound, end_bound)`.
The unit string selects ROWS/RANGE/GROUPS (anything else fails); an absent
start bound is an unspecified preceding bound (treated as unbounded
preceding), a present one a concrete preceding offset; symmetrically the
end bound is a following offset, absent meaning unbounded following. -/
def PyWindowFrame.new (units : String) (start_bound : Option Nat)
    (end_bound : Option Nat) : Except DataFusionError DF.WindowFrame :=
  match units with
  | "rows" => Except.ok
      { units := DF.WindowFrameUnits.Rows
        startBound := DF.WindowFrameBound.Preceding start_bound
        endBound := DF.WindowFrameBound.Following end_bound }
  | "range" => Except.ok
      { units := DF.WindowFrameUnits.Range
        startBound := DF.WindowFrameBound.Preceding start_bound
        endBound := DF.WindowFrameBound.Following end_bound }
  | "groups" => Except.ok
      { units := DF.WindowFrameUnits.Groups
        startBound := DF.WindowFrameBound.Preceding start_bound
        endBound := DF.WindowFrameBound.Following end_bound }
  | _ => Except.error (DataFusionError.Common ("invalid window frame units"))

/-- The frame `window` installs when the caller passes no frame:
`PyWindowFrame::new("rows", None, Some(0)).unwrap()`. The `unwrap` is safe
because that call always succeeds; the fallback value mirrors it and is
unreachable. -/
def defaultWindowFrame : DF.WindowFrame :=
  match PyWindowFrame.new ("rows") none (some 0) with
  | Except.ok f => f
  | Except.error _ =>
      { units := DF.WindowFrameUnits.Rows
        startBound := DF.WindowFrameBound.Preceding none
        endBound := DF.WindowFrameBound.Following (some 0) }

/-- The `in_list` builder: forwards operand, unwrapped value list and the
negation flag to the engine's `in_list` helper. -/
def in_list (expr : DF.Expr) (value : List DF.Expr) (negated : Bool) : DF.Expr :=
  DF.in_list expr value negated

/-- The `order_by` builder: a Sort node whose omitted flags each default
to `true`. -/
def order_by (expr : DF.Expr) (asc : Option Bool) (nulls_first : Option Bool) :
    DF.Expr :=
  DF.Expr.sort expr (asc.getD true) (nulls_first.getD true)

/-- The `alias` builder: wraps the expression in an Alias node with no
table qualification. -/
def «alias» (expr : DF.Expr) (name : String) : DF.Expr :=
  DF.Expr.alias expr none name

/-- The `col` builder: an unqualified column reference. -/
def col (name : String) : DF.Expr :=
  DF.Expr.column none name

/-- The `count_star` builder: a builtin Count aggregate over the literal 1,
not distinct, with no filter and no ordering. -/
def count_star : DF.Expr :=
  DF.Expr.aggregateFunction
    (DF.AggregateFunctionDefinition.builtIn DF.AggregateFunction.Count)
    [DF.lit 1] false none none

/-- The `window` builder: resolves the name first against the engine's
builtin window functions, then (only when a session handle is present)
against the session's user-defined aggregates; unresolved names fail with
the window-function-not-found error. Partition-by and order-by default to
empty lists and an absent frame defaults to `defaultWindowFrame`. -/
def window (name : String) (args : List DF.Expr)
    (partition_by : Option (List DF.Expr)) (order_by : Option (List DF.Expr))
    (window_frame : Option DF.WindowFrame) (ctx : Option SessionContext) :
    Except DataFusionError DF.Expr :=
  let f : Option DF.WindowFunctionDefinition :=
    (DF.find_df_window_func name).orElse fun _ =>
      ctx.bind fun c =>
        Except.toOption ((c.udaf name).map DF.WindowFunctionDefinition.aggregateUDF)
  match f with
  | none => Except.error (DataFusionError.Common ("window function not found"))
  | some f =>
      Except.ok (DF.Expr.windowFunction f args
        (partition_by.getD []) (order_by.getD [])
        (window_frame.getD defaultWindowFrame))

/-!
The scalar constructor catalog: one definition per `scalar_function!`
invocation of the source file, in source order. Each takes the variadic
argument list and produces a ScalarFunctionCall node with the resolved
builtin tag and the arguments unchanged.
-/

def abs (args : List DF.Expr) : DF.Expr :=
  DF.Expr.scalarFunction (DF.ScalarFunctionDefinition.builtIn DF.BuiltinScalarFunction.Abs) args

def acos (args : List DF.Expr) : DF.Expr :=
  DF.Expr.scalarFunction (DF.ScalarFunctionDefinition.builtIn DF.BuiltinScalarFunction.Acos) args

def acosh (args : List DF.Expr) : DF.Expr :=
  DF.Expr.scalarFunction (DF.ScalarFunctionDefinition.builtIn DF.BuiltinScalarFunction.Acosh) args

def ascii (args : List DF.Expr) : DF.Expr :=
  DF.Expr.scalarFunction (DF.ScalarFunctionDefinition.builtIn DF.BuiltinScalarFunction.Ascii) args

def asin (args : List DF.Expr) : DF.Expr :=
  DF.Expr.scalarFunction (DF.ScalarFunctionDefinition.builtIn DF.BuiltinScalarFunction.Asin) args

def asinh (args : List DF.Expr) : DF.Expr :=
  DF.Expr.scalarFunction (DF.ScalarFunctionDefinition.builtIn DF.BuiltinScalarFunction.Asinh) args

def atan (args : List DF.Expr) : DF.Expr :=
  DF.Expr.scalarFunction (DF.ScalarFunctionDefinition.builtIn DF.BuiltinScalarFunction.Atan) args

def atanh (args : List DF.Expr) : DF.Expr :=
  DF.Expr.scalarFunction (DF.ScalarFunctionDefinition.builtIn DF.BuiltinScalarFunction.Atanh) args

def atan2 (args : List DF.Expr) : DF.Expr :=
  DF.Expr.scalarFunction (DF.ScalarFunctionDefinition.builtIn DF.BuiltinScalarFunction.Atan2) args

def bit_length (args : List DF.Expr) : DF.Expr :=
  DF.Expr.scalarFunction (DF.ScalarFunctionDefinition.builtIn DF.BuiltinScalarFunction.BitLength) args

def btrim (args : List DF.Expr) : DF.Expr :=
  DF.Expr.scalarFunction (DF.ScalarFunctionDefinition.builtIn DF.BuiltinScalarFunction.Btrim) args

def cbrt (args : List DF.Expr) : DF.Expr :=
  DF.Expr.scalarFunction (DF.ScalarFunctionDefinition.builtIn DF.BuiltinScalarFunction.Cbrt) args

def ceil (args : List DF.Expr) : DF.Expr :=
  DF.Expr.scalarFunction (DF.ScalarFunctionDefinition.builtIn DF.BuiltinScalarFunction.Ceil) args

def character_length (args : List DF.Expr) : DF.Expr :=
  DF.Expr.scalarFunction (DF.ScalarFunctionDefinition.builtIn DF.BuiltinScalarFunction.CharacterLength) args

def length (args : List DF.Expr) : DF.Expr :=
  DF.Expr.scalarFunction (DF.ScalarFunctionDefinition.builtIn DF.BuiltinScalarFunction.CharacterLength) args

def char_length (args : List DF.Expr) : DF.Expr :=
  DF.Expr.scalarFunction (DF.ScalarFunctionDefinition.builtIn DF.BuiltinScalarFunction.CharacterLength) args

def chr (args : List DF.Expr) : DF.Expr :=
  DF.Expr.scalarFunction (DF.ScalarFunctionDefinition.builtIn DF.BuiltinScalarFunction.Chr) args

def coalesce (args : List DF.Expr) : DF.Expr :=
  DF.Expr.scalarFunction (DF.ScalarFunctionDefinition.builtIn DF.BuiltinScalarFunction.Coalesce) args

def cos (args : List DF.Expr) : DF.Expr :=
  DF.Expr.scalarFunction (DF.ScalarFunctionDefinition.builtIn DF.BuiltinScalarFunction.Cos) args

def cosh (args : List DF.Expr) : DF.Expr :=
  DF.Expr.scalarFunction (DF.ScalarFunctionDefinition.builtIn DF.BuiltinScalarFunction.Cosh) args

def degrees (args : List DF.Expr) : DF.Expr :=
  DF.Expr.scalarFunction (DF.ScalarFunctionDefinition.builtIn DF.BuiltinScalarFunction.Degrees) args

def exp (args : List DF.Expr) : DF.Expr :=
  DF.Expr.scalarFunction (DF.ScalarFunctionDefinition.builtIn DF.BuiltinScalarFunction.Exp) args

def factorial (args : List DF.Expr) : DF.Expr :=
  DF.Expr.scalarFunction (DF.ScalarFunctionDefinition.builtIn DF.BuiltinScalarFunction.Factorial) args

def floor (args : List DF.Expr) : DF.Expr :=
  DF.Expr.scalarFunction (DF.ScalarFunctionDefinition.builtIn DF.BuiltinScalarFunction.Floor) args

def gcd (args : List DF.Expr) : DF.Expr :=
  DF.Expr.scalarFunction (DF.ScalarFunctionDefinition.builtIn DF.BuiltinScalarFunction.Gcd) args

def initcap (args : List DF.Expr) : DF.Expr :=
  DF.Expr.scalarFunction (DF.ScalarFunctionDefinition.builtIn DF.BuiltinScalarFunction.InitCap) args

def iszero (args : List DF.Expr) : DF.Expr :=
  DF.Expr.scalarFunction (DF.ScalarFunctionDefinition.builtIn DF.BuiltinScalarFunction.Iszero) args

def lcm (args : List DF.Expr) : DF.Expr :=
  DF.Expr.scalarFunction (DF.ScalarFunctionDefinition.builtIn DF.BuiltinScalarFunction.Lcm) args

def left (args : List DF.Expr) : DF.Expr :=
  DF.Expr.scalarFunction (DF.ScalarFunctionDefinition.builtIn DF.BuiltinScalarFunction.Left) args

def ln (args : List DF.Expr) : DF.Expr :=
  DF.Expr.scalarFunction (DF.ScalarFunctionDefinition.builtIn DF.BuiltinScalarFunction.Ln) args

def log (args : List DF.Expr) : DF.Expr :=
  DF.Expr.scalarFunction (DF.ScalarFunctionDefinition.builtIn DF.BuiltinScalarFunction.Log) args

def log10 (args : List DF.Expr) : DF.Expr :=
  DF.Expr.scalarFunction (DF.ScalarFunctionDefinition.builtIn DF.BuiltinScalarFunction.Log10) args

def log2 (args : List DF.Expr) : DF.Expr :=
  DF.Expr.scalarFunction (DF.ScalarFunctionDefinition.builtIn DF.BuiltinScalarFunction.Log2) args

def lower (args : List DF.Expr) : DF.Expr :=
  DF.Expr.scalarFunction (DF.ScalarFunctionDefinition.builtIn DF.BuiltinScalarFunction.Lower) args

def lpad (args : List DF.Expr) : DF.Expr :=
  DF.Expr.scalarFunction (DF.ScalarFunctionDefinition.builtIn DF.BuiltinScalarFunction.Lpad) args

def ltrim (args : List DF.Expr) : DF.Expr :=
  DF.Expr.scalarFunction (DF.ScalarFunctionDefinition.builtIn DF.BuiltinScalarFunction.Ltrim) args

def md5 (args : List DF.Expr) : DF.Expr :=
  DF.Expr.scalarFunction (DF.ScalarFunctionDefinition.builtIn DF.BuiltinScalarFunction.MD5) args

def nanvl (args : List DF.Expr) : DF.Expr :=
  DF.Expr.scalarFunction (DF.ScalarFunctionDefinition.builtIn DF.BuiltinScalarFunction.Nanvl) args

def octet_length (args : List DF.Expr) : DF.Expr :=
  DF.Expr.scalarFunction (DF.ScalarFunctionDefinition.builtIn DF.BuiltinScalarFunction.OctetLength) args

def pi (args : List DF.Expr) : DF.Expr :=
  DF.Expr.scalarFunction (DF.ScalarFunctionDefinition.builtIn DF.BuiltinScalarFunction.Pi) args

def power (args : List DF.Expr) : DF.Expr :=
  DF.Expr.scalarFunction (DF.ScalarFunctionDefinition.builtIn DF.BuiltinScalarFunction.Power) args

def pow (args : List DF.Expr) : DF.Expr :=
  DF.Expr.scalarFunction (DF.ScalarFunctionDefinition.builtIn DF.BuiltinScalarFunction.Power) args

def radians (args : List DF.Expr) : DF.Expr :=
  DF.Expr.scalarFunction (DF.ScalarFunctionDefinition.builtIn DF.BuiltinScalarFunction.Radians) args

def regexp_match (args : List DF.Expr) : DF.Expr :=
  DF.Expr.scalarFunction (DF.ScalarFunctionDefinition.builtIn DF.BuiltinScalarFunction.RegexpMatch) args

def regexp_replace (args : List DF.Expr) : DF.Expr :=
  DF.Expr.scalarFunction (DF.ScalarFunctionDefinition.builtIn DF.BuiltinScalarFunction.RegexpReplace) args

def «repeat» (args : List DF.Expr) : DF.Expr :=
  DF.Expr.scalarFunction (DF.ScalarFunctionDefinition.builtIn DF.BuiltinScalarFunction.Repeat) args

def replace (args : List DF.Expr) : DF.Expr :=
  DF.Expr.scalarFunction (DF.ScalarFunctionDefinition.builtIn DF.BuiltinScalarFunction.Replace) args

def reverse (args : List DF.Expr) : DF.Expr :=
  DF.Expr.scalarFunction (DF.ScalarFunctionDefinition.builtIn DF.BuiltinScalarFunction.Reverse) args

def right (args : List DF.Expr) : DF.Expr :=
  DF.Expr.scalarFunction (DF.ScalarFunctionDefinition.builtIn DF.BuiltinScalarFunction.Right) args

def round (args : List DF.Expr) : DF.Expr :=
  DF.Expr.scalarFunction (DF.ScalarFunctionDefinition.builtIn DF.BuiltinScalarFunction.Round) args

def rpad (args : List DF.Expr) : DF.Expr :=
  DF.Expr.scalarFunction (DF.ScalarFunctionDefinition.builtIn DF.BuiltinScalarFunction.Rpad) args

def rtrim (args : List DF.Expr) : DF.Expr :=
  DF.Expr.scalarFunction (DF.ScalarFunctionDefinition.builtIn DF.BuiltinScalarFunction.Rtrim) args

def sha224 (args : List DF.Expr) : DF.Expr :=
  DF.Expr.scalarFunction (DF.ScalarFunctionDefinition.builtIn DF.BuiltinScalarFunction.SHA224) args

def sha256 (args : List DF.Expr) : DF.Expr :=
  DF.Expr.scalarFunction (DF.ScalarFunctionDefinition.builtIn DF.BuiltinScalarFunction.SHA256) args

def sha384 (args : List DF.Expr) : DF.Expr :=
  DF.Expr.scalarFunction (DF.ScalarFunctionDefinition.builtIn DF.BuiltinScalarFunction.SHA384) args

def sha512 (args : List DF.Expr) : DF.Expr :=
  DF.Expr.scalarFunction (DF.ScalarFunctionDefinition.builtIn DF.BuiltinScalarFunction.SHA512) args

def signum (args : List DF.Expr) : DF.Expr :=
  DF.Expr.scalarFunction (DF.ScalarFunctionDefinition.builtIn DF.BuiltinScalarFunction.Signum) args

def sin (args : List DF.Expr) : DF.Expr :=
  DF.Expr.scalarFunction (DF.ScalarFunctionDefinition.builtIn DF.BuiltinScalarFunction.Sin) args

def sinh (args : List DF.Expr) : DF.Expr :=
  DF.Expr.scalarFunction (DF.ScalarFunctionDefinition.builtIn DF.BuiltinScalarFunction.Sinh) args

def split_part (args : List DF.Expr) : DF.Expr :=
  DF.Expr.scalarFunction (DF.ScalarFunctionDefinition.builtIn DF.BuiltinScalarFunction.SplitPart) args

def sqrt (args : List DF.Expr) : DF.Expr :=
  DF.Expr.scalarFunction (DF.ScalarFunctionDefinition.builtIn DF.BuiltinScalarFunction.Sqrt) args

def starts_with (args : List DF.Expr) : DF.Expr :=
  DF.Expr.scalarFunction (DF.ScalarFunctionDefinition.builtIn DF.BuiltinScalarFunction.StartsWith) args

def strpos (args : List DF.Expr) : DF.Expr :=
  DF.Expr.scalarFunction (DF.ScalarFunctionDefinition.builtIn DF.BuiltinScalarFunction.Strpos) args

def substr (args : List DF.Expr) : DF.Expr :=
  DF.Expr.scalarFunction (DF.ScalarFunctionDefinition.builtIn DF.BuiltinScalarFunction.Substr) args

def tan (args : List DF.Expr) : DF.Expr :=
  DF.Expr.scalarFunction (DF.ScalarFunctionDefinition.builtIn DF.BuiltinScalarFunction.Tan) args

def tanh (args : List DF.Expr) : DF.Expr :=
  DF.Expr.scalarFunction (DF.ScalarFunctionDefinition.builtIn DF.BuiltinScalarFunction.Tanh) args

def to_hex (args : List DF.Expr) : DF.Expr :=
  DF.Expr.scalarFunction (DF.ScalarFunctionDefinition.builtIn DF.BuiltinScalarFunction.ToHex) args

def now (args : List DF.Expr) : DF.Expr :=
  DF.Expr.scalarFunction (DF.ScalarFunctionDefinition.builtIn DF.BuiltinScalarFunction.Now) args

def to_timestamp (args : List DF.Expr) : DF.Expr :=
  DF.Expr.scalarFunction (DF.ScalarFunctionDefinition.builtIn DF.BuiltinScalarFunction.ToTimestamp) args

def to_timestamp_millis (args : List DF.Expr) : DF.Expr :=
  DF.Expr.scalarFunction (DF.ScalarFunctionDefinition.builtIn DF.BuiltinScalarFunction.ToTimestampMillis) args

def to_timestamp_micros (args : List DF.Expr) : DF.Expr :=
  DF.Expr.scalarFunction (DF.ScalarFunctionDefinition.builtIn DF.BuiltinScalarFunction.ToTimestampMicros) args

def to_timestamp_seconds (args : List DF.Expr) : DF.Expr :=
  DF.Expr.scalarFunction (DF.ScalarFunctionDefinition.builtIn DF.BuiltinScalarFunction.ToTimestampSeconds) args

def current_date (args : List DF.Expr) : DF.Expr :=
  DF.Expr.scalarFunction (DF.ScalarFunctionDefinition.builtIn DF.BuiltinScalarFunction.CurrentDate) args

def current_time (args : List DF.Expr) : DF.Expr :=
  DF.Expr.scalarFunction (DF.ScalarFunctionDefinition.builtIn DF.BuiltinScalarFunction.CurrentTime) args

def datepart (args : List DF.Expr) : DF.Expr :=
  DF.Expr.scalarFunction (DF.ScalarFunctionDefinition.builtIn DF.BuiltinScalarFunction.DatePart) args

def date_part (args : List DF.Expr) : DF.Expr :=
  DF.Expr.scalarFunction (DF.ScalarFunctionDefinition.builtIn DF.BuiltinScalarFunction.DatePart) args

def date_trunc (args : List DF.Expr) : DF.Expr :=
  DF.Expr.scalarFunction (DF.ScalarFunctionDefinition.builtIn DF.BuiltinScalarFunction.DateTrunc) args

def datetrunc (args : List DF.Expr) : DF.Expr :=
  DF.Expr.scalarFunction (DF.ScalarFunctionDefinition.builtIn DF.BuiltinScalarFunction.DateTrunc) args

def date_bin (args : List DF.Expr) : DF.Expr :=
  DF.Expr.scalarFunction (DF.ScalarFunctionDefinition.builtIn DF.BuiltinScalarFunction.DateBin) args

def translate (args : List DF.Expr) : DF.Expr :=
  DF.Expr.scalarFunction (DF.ScalarFunctionDefinition.builtIn DF.BuiltinScalarFunction.Translate) args

def trim (args : List DF.Expr) : DF.Expr :=
  DF.Expr.scalarFunction (DF.ScalarFunctionDefinition.builtIn DF.BuiltinScalarFunction.Trim) args

def trunc (args : List DF.Expr) : DF.Expr :=
  DF.Expr.scalarFunction (DF.ScalarFunctionDefinition.builtIn DF.BuiltinScalarFunction.Trunc) args

def upper (args : List DF.Expr) : DF.Expr :=
  DF.Expr.scalarFunction (DF.ScalarFunctionDefinition.builtIn DF.BuiltinScalarFunction.Upper) args

def make_array (args : List DF.Expr) : DF.Expr :=
  DF.Expr.scalarFunction (DF.ScalarFunctionDefinition.builtIn DF.BuiltinScalarFunction.MakeArray) args

def array (args : List DF.Expr) : DF.Expr :=
  DF.Expr.scalarFunction (DF.ScalarFunctionDefinition.builtIn DF.BuiltinScalarFunction.MakeArray) args

def range (args : List DF.Expr) : DF.Expr :=
  DF.Expr.scalarFunction (DF.ScalarFunctionDefinition.builtIn DF.BuiltinScalarFunction.Range) args

def uuid (args : List DF.Expr) : DF.Expr :=
  DF.Expr.scalarFunction (DF.ScalarFunctionDefinition.builtIn DF.BuiltinScalarFunction.Uuid) args

def struct (args : List DF.Expr) : DF.Expr :=
  DF.Expr.scalarFunction (DF.ScalarFunctionDefinition.builtIn DF.BuiltinScalarFunction.Struct) args

def from_unixtime (args : List DF.Expr) : DF.Expr :=
  DF.Expr.scalarFunction (DF.ScalarFunctionDefinition.builtIn DF.BuiltinScalarFunction.FromUnixtime) args

def arrow_typeof (args : List DF.Expr) : DF.Expr :=
  DF.Expr.scalarFunction (DF.ScalarFunctionDefinition.builtIn DF.BuiltinScalarFunction.ArrowTypeof) args

def random (args : List DF.Expr) : DF.Expr :=
  DF.Expr.scalarFunction (DF.ScalarFunctionDefinition.builtIn DF.BuiltinScalarFunction.Random) args

def array_append (args : List DF.Expr) : DF.Expr :=
  DF.Expr.scalarFunction (DF.ScalarFunctionDefinition.builtIn DF.BuiltinScalarFunction.ArrayAppend) args

def array_push_back (args : List DF.Expr) : DF.Expr :=
  DF.Expr.scalarFunction (DF.ScalarFunctionDefinition.builtIn DF.BuiltinScalarFunction.ArrayAppend) args

def list_append (args : List DF.Expr) : DF.Expr :=
  DF.Expr.scalarFunction (DF.ScalarFunctionDefinition.builtIn DF.BuiltinScalarFunction.ArrayAppend) args

def list_push_back (args : List DF.Expr) : DF.Expr :=
  DF.Expr.scalarFunction (DF.ScalarFunctionDefinition.builtIn DF.BuiltinScalarFunction.ArrayAppend) args

def array_concat (args : List DF.Expr) : DF.Expr :=
  DF.Expr.scalarFunction (DF.ScalarFunctionDefinition.builtIn DF.BuiltinScalarFunction.ArrayConcat) args

def array_cat (args : List DF.Expr) : DF.Expr :=
  DF.Expr.scalarFunction (DF.ScalarFunctionDefinition.builtIn DF.BuiltinScalarFunction.ArrayConcat) args

def array_dims (args : List DF.Expr) : DF.Expr :=
  DF.Expr.scalarFunction (DF.ScalarFunctionDefinition.builtIn DF.BuiltinScalarFunction.ArrayDims) args

def array_distinct (args : List DF.Expr) : DF.Expr :=
  DF.Expr.scalarFunction (DF.ScalarFunctionDefinition.builtIn DF.BuiltinScalarFunction.ArrayDistinct) args

def list_distinct (args : List DF.Expr) : DF.Expr :=
  DF.Expr.scalarFunction (DF.ScalarFunctionDefinition.builtIn DF.BuiltinScalarFunction.ArrayDistinct) args

def list_dims (args : List DF.Expr) : DF.Expr :=
  DF.Expr.scalarFunction (DF.ScalarFunctionDefinition.builtIn DF.BuiltinScalarFunction.ArrayDims) args

def array_element (args : List DF.Expr) : DF.Expr :=
  DF.Expr.scalarFunction (DF.ScalarFunctionDefinition.builtIn DF.BuiltinScalarFunction.ArrayElement) args

def array_extract (args : List DF.Expr) : DF.Expr :=
  DF.Expr.scalarFunction (DF.ScalarFunctionDefinition.builtIn DF.BuiltinScalarFunction.ArrayElement) args

def list_element (args : List DF.Expr) : DF.Expr :=
  DF.Expr.scalarFunction (DF.ScalarFunctionDefinition.builtIn DF.BuiltinScalarFunction.ArrayElement) args

def list_extract (args : List DF.Expr) : DF.Expr :=
  DF.Expr.scalarFunction (DF.ScalarFunctionDefinition.builtIn DF.BuiltinScalarFunction.ArrayElement) args

def array_length (args : List DF.Expr) : DF.Expr :=
  DF.Expr.scalarFunction (DF.ScalarFunctionDefinition.builtIn DF.BuiltinScalarFunction.ArrayLength) args

def list_length (args : List DF.Expr) : DF.Expr :=
  DF.Expr.scalarFunction (DF.ScalarFunctionDefinition.builtIn DF.BuiltinScalarFunction.ArrayLength) args

def array_has (args : List DF.Expr) : DF.Expr :=
  DF.Expr.scalarFunction (DF.ScalarFunctionDefinition.builtIn DF.BuiltinScalarFunction.ArrayHas) args

def array_has_all (args : List DF.Expr) : DF.Expr :=
  DF.Expr.scalarFunction (DF.ScalarFunctionDefinition.builtIn DF.BuiltinScalarFunction.ArrayHasAll) args

def array_has_any (args : List DF.Expr) : DF.Expr :=
  DF.Expr.scalarFunction (DF.ScalarFunctionDefinition.builtIn DF.BuiltinScalarFunction.ArrayHasAny) args

def array_position (args : List DF.Expr) : DF.Expr :=
  DF.Expr.scalarFunction (DF.ScalarFunctionDefinition.builtIn DF.BuiltinScalarFunction.ArrayPosition) args

def array_indexof (args : List DF.Expr) : DF.Expr :=
  DF.Expr.scalarFunction (DF.ScalarFunctionDefinition.builtIn DF.BuiltinScalarFunction.ArrayPosition) args

def list_position (args : List DF.Expr) : DF.Expr :=
  DF.Expr.scalarFunction (DF.ScalarFunctionDefinition.builtIn DF.BuiltinScalarFunction.ArrayPosition) args

def list_indexof (args : List DF.Expr) : DF.Expr :=
  DF.Expr.scalarFunction (DF.ScalarFunctionDefinition.builtIn DF.BuiltinScalarFunction.ArrayPosition) args

def array_positions (args : List DF.Expr) : DF.Expr :=
  DF.Expr.scalarFunction (DF.ScalarFunctionDefinition.builtIn DF.BuiltinScalarFunction.ArrayPositions) args

def list_positions (args : List DF.Expr) : DF.Expr :=
  DF.Expr.scalarFunction (DF.ScalarFunctionDefinition.builtIn DF.BuiltinScalarFunction.ArrayPositions) args

def array_ndims (args : List DF.Expr) : DF.Expr :=
  DF.Expr.scalarFunction (DF.ScalarFunctionDefinition.builtIn DF.BuiltinScalarFunction.ArrayNdims) args

def list_ndims (args : List DF.Expr) : DF.Expr :=
  DF.Expr.scalarFunction (DF.ScalarFunctionDefinition.builtIn DF.BuiltinScalarFunction.ArrayNdims) args

def array_prepend (args : List DF.Expr) : DF.Expr :=
  DF.Expr.scalarFunction (DF.ScalarFunctionDefinition.builtIn DF.BuiltinScalarFunction.ArrayPrepend) args

def array_push_front (args : List DF.Expr) : DF.Expr :=
  DF.Expr.scalarFunction (DF.ScalarFunctionDefinition.builtIn DF.BuiltinScalarFunction.ArrayPrepend) args

def list_prepend (args : List DF.Expr) : DF.Expr :=
  DF.Expr.scalarFunction (DF.ScalarFunctionDefinition.builtIn DF.BuiltinScalarFunction.ArrayPrepend) args

def list_push_front (args : List DF.Expr) : DF.Expr :=
  DF.Expr.scalarFunction (DF.ScalarFunctionDefinition.builtIn DF.BuiltinScalarFunction.ArrayPrepend) args

def array_pop_back (args : List DF.Expr) : DF.Expr :=
  DF.Expr.scalarFunction (DF.ScalarFunctionDefinition.builtIn DF.BuiltinScalarFunction.ArrayPopBack) args

def array_pop_front (args : List DF.Expr) : DF.Expr :=
  DF.Expr.scalarFunction (DF.ScalarFunctionDefinition.builtIn DF.BuiltinScalarFunction.ArrayPopFront) args

def array_remove (args : List DF.Expr) : DF.Expr :=
  DF.Expr.scalarFunction (DF.ScalarFunctionDefinition.builtIn DF.BuiltinScalarFunction.ArrayRemove) args

def list_remove (args : List DF.Expr) : DF.Expr :=
  DF.Expr.scalarFunction (DF.ScalarFunctionDefinition.builtIn DF.BuiltinScalarFunction.ArrayRemove) args

def array_remove_n (args : List DF.Expr) : DF.Expr :=
  DF.Expr.scalarFunction (DF.ScalarFunctionDefinition.builtIn DF.BuiltinScalarFunction.ArrayRemoveN) args

def list_remove_n (args : List DF.Expr) : DF.Expr :=
  DF.Expr.scalarFunction (DF.ScalarFunctionDefinition.builtIn DF.BuiltinScalarFunction.ArrayRemoveN) args

def array_remove_all (args : List DF.Expr) : DF.Expr :=
  DF.Expr.scalarFunction (DF.ScalarFunctionDefinition.builtIn DF.BuiltinScalarFunction.ArrayRemoveAll) args

def list_remove_all (args : List DF.Expr) : DF.Expr :=
  DF.Expr.scalarFunction (DF.ScalarFunctionDefinition.builtIn DF.BuiltinScalarFunction.ArrayRemoveAll) args

def array_repeat (args : List DF.Expr) : DF.Expr :=
  DF.Expr.scalarFunction (DF.ScalarFunctionDefinition.builtIn DF.BuiltinScalarFunction.ArrayRepeat) args

def array_replace (args : List DF.Expr) : DF.Expr :=
  DF.Expr.scalarFunction (DF.ScalarFunctionDefinition.builtIn DF.BuiltinScalarFunction.ArrayReplace) args

def list_replace (args : List DF.Expr) : DF.Expr :=
  DF.Expr.scalarFunction (DF.ScalarFunctionDefinition.builtIn DF.BuiltinScalarFunction.ArrayReplace) args

def array_replace_n (args : List DF.Expr) : DF.Expr :=
  DF.Expr.scalarFunction (DF.ScalarFunctionDefinition.builtIn DF.BuiltinScalarFunction.ArrayReplaceN) args

def list_replace_n (args : List DF.Expr) : DF.Expr :=
  DF.Expr.scalarFunction (DF.ScalarFunctionDefinition.builtIn DF.BuiltinScalarFunction.ArrayReplaceN) args

def array_replace_all (args : List DF.Expr) : DF.Expr :=
  DF.Expr.scalarFunction (DF.ScalarFunctionDefinition.builtIn DF.BuiltinScalarFunction.ArrayReplaceAll) args

def list_replace_all (args : List DF.Expr) : DF.Expr :=
  DF.Expr.scalarFunction (DF.ScalarFunctionDefinition.builtIn DF.BuiltinScalarFunction.ArrayReplaceAll) args

def array_slice (args : List DF.Expr) : DF.Expr :=
  DF.Expr.scalarFunction (DF.ScalarFunctionDefinition.builtIn DF.BuiltinScalarFunction.ArraySlice) args

def list_slice (args : List DF.Expr) : DF.Expr :=
  DF.Expr.scalarFunction (DF.ScalarFunctionDefinition.builtIn DF.BuiltinScalarFunction.ArraySlice) args

def array_intersect (args : List DF.Expr) : DF.Expr :=
  DF.Expr.scalarFunction (DF.ScalarFunctionDefinition.builtIn DF.BuiltinScalarFunction.ArrayIntersect) args

def list_intersect (args : List DF.Expr) : DF.Expr :=
  DF.Expr.scalarFunction (DF.ScalarFunctionDefinition.builtIn DF.BuiltinScalarFunction.ArrayIntersect) args

def array_union (args : List DF.Expr) : DF.Expr :=
  DF.Expr.scalarFunction (DF.ScalarFunctionDefinition.builtIn DF.BuiltinScalarFunction.ArrayUnion) args

def list_union (args : List DF.Expr) : DF.Expr :=
  DF.Expr.scalarFunction (DF.ScalarFunctionDefinition.builtIn DF.BuiltinScalarFunction.ArrayUnion) args

def array_except (args : List DF.Expr) : DF.Expr :=
  DF.Expr.scalarFunction (DF.ScalarFunctionDefinition.builtIn DF.BuiltinScalarFunction.ArrayExcept) args

def list_except (args : List DF.Expr) : DF.Expr :=
  DF.Expr.scalarFunction (DF.ScalarFunctionDefinition.builtIn DF.BuiltinScalarFunction.ArrayExcept) args

def array_resize (args : List DF.Expr) : DF.Expr :=
  DF.Expr.scalarFunction (DF.ScalarFunctionDefinition.builtIn DF.BuiltinScalarFunction.ArrayResize) args

def list_resize (args : List DF.Expr) : DF.Expr :=
  DF.Expr.scalarFunction (DF.ScalarFunctionDefinition.builtIn DF.BuiltinScalarFunction.ArrayResize) args

def flatten (args : List DF.Expr) : DF.Expr :=
  DF.Expr.scalarFunction (DF.ScalarFunctionDefinition.builtIn DF.BuiltinScalarFunction.Flatten) args

/-!
The aggregate constructor catalog: one definition per
`aggregate_function!` invocation of the source file, in source order.
Each takes the variadic argument list and the distinct flag and produces
an AggregateFunctionCall node with filter and ordering unset.
-/

def approx_distinct (args : List DF.Expr) (distinct : Bool) : DF.Expr :=
  DF.Expr.aggregateFunction (DF.AggregateFunctionDefinition.builtIn DF.AggregateFunction.ApproxDistinct) args distinct none none

def approx_median (args : List DF.Expr) (distinct : Bool) : DF.Expr :=
  DF.Expr.aggregateFunction (DF.AggregateFunctionDefinition.builtIn DF.AggregateFunction.ApproxMedian) args distinct none none

def approx_percentile_cont (args : List DF.Expr) (distinct : Bool) : DF.Expr :=
  DF.Expr.aggregateFunction (DF.AggregateFunctionDefinition.builtIn DF.AggregateFunction.ApproxPercentileCont) args distinct none none

def approx_percentile_cont_with_weight (args : List DF.Expr) (distinct : Bool) : DF.Expr :=
  DF.Expr.aggregateFunction (DF.AggregateFunctionDefinition.builtIn DF.AggregateFunction.ApproxPercentileContWithWeight) args distinct none none

def array_agg (args : List DF.Expr) (distinct : Bool) : DF.Expr :=
  DF.Expr.aggregateFunction (DF.AggregateFunctionDefinition.builtIn DF.AggregateFunction.ArrayAgg) args distinct none none

def avg (args : List DF.Expr) (distinct : Bool) : DF.Expr :=
  DF.Expr.aggregateFunction (DF.AggregateFunctionDefinition.builtIn DF.AggregateFunction.Avg) args distinct none none

def corr (args : List DF.Expr) (distinct : Bool) : DF.Expr :=
  DF.Expr.aggregateFunction (DF.AggregateFunctionDefinition.builtIn DF.AggregateFunction.Correlation) args distinct none none

def count (args : List DF.Expr) (distinct : Bool) : DF.Expr :=
  DF.Expr.aggregateFunction (DF.AggregateFunctionDefinition.builtIn DF.AggregateFunction.Count) args distinct none none

def covar (args : List DF.Expr) (distinct : Bool) : DF.Expr :=
  DF.Expr.aggregateFunction (DF.AggregateFunctionDefinition.builtIn DF.AggregateFunction.Covariance) args distinct none none

def covar_pop (args : List DF.Expr) (distinct : Bool) : DF.Expr :=
  DF.Expr.aggregateFunction (DF.AggregateFunctionDefinition.builtIn DF.AggregateFunction.CovariancePop) args distinct none none

def covar_samp (args : List DF.Expr) (distinct : Bool) : DF.Expr :=
  DF.Expr.aggregateFunction (DF.AggregateFunctionDefinition.builtIn DF.AggregateFunction.Covariance) args distinct none none

def grouping (args : List DF.Expr) (distinct : Bool) : DF.Expr :=
  DF.Expr.aggregateFunction (DF.AggregateFunctionDefinition.builtIn DF.AggregateFunction.Grouping) args distinct none none

def max (args : List DF.Expr) (distinct : Bool) : DF.Expr :=
  DF.Expr.aggregateFunction (DF.AggregateFunctionDefinition.builtIn DF.AggregateFunction.Max) args distinct none none

def mean (args : List DF.Expr) (distinct : Bool) : DF.Expr :=
  DF.Expr.aggregateFunction (DF.AggregateFunctionDefinition.builtIn DF.AggregateFunction.Avg) args distinct none none

def median (args : List DF.Expr) (distinct : Bool) : DF.Expr :=
  DF.Expr.aggregateFunction (DF.AggregateFunctionDefinition.builtIn DF.AggregateFunction.Median) args distinct none none

def min (args : List DF.Expr) (distinct : Bool) : DF.Expr :=
  DF.Expr.aggregateFunction (DF.AggregateFunctionDefinition.builtIn DF.AggregateFunction.Min) args distinct none none

def sum (args : List DF.Expr) (distinct : Bool) : DF.Expr :=
  DF.Expr.aggregateFunction (DF.AggregateFunctionDefinition.builtIn DF.AggregateFunction.Sum) args distinct none none

def stddev (args : List DF.Expr) (distinct : Bool) : DF.Expr :=
  DF.Expr.aggregateFunction (DF.AggregateFunctionDefinition.builtIn DF.AggregateFunction.Stddev) args distinct none none

def stddev_pop (args : List DF.Expr) (distinct : Bool) : DF.Expr :=
  DF.Expr.aggregateFunction (DF.AggregateFunctionDefinition.builtIn DF.AggregateFunction.StddevPop) args distinct none none

def stddev_samp (args : List DF.Expr) (distinct : Bool) : DF.Expr :=
  DF.Expr.aggregateFunction (DF.AggregateFunctionDefinition.builtIn DF.AggregateFunction.Stddev) args distinct none none

def var (args : List DF.Expr) (distinct : Bool) : DF.Expr :=
  DF.Expr.aggregateFunction (DF.AggregateFunctionDefinition.builtIn DF.AggregateFunction.Variance) args distinct none none

def var_pop (args : List DF.Expr) (distinct : Bool) : DF.Expr :=
  DF.Expr.aggregateFunction (DF.AggregateFunctionDefinition.builtIn DF.AggregateFunction.VariancePop) args distinct none none

def var_samp (args : List DF.Expr) (distinct : Bool) : DF.Expr :=
  DF.Expr.aggregateFunction (DF.AggregateFunctionDefinition.builtIn DF.AggregateFunction.Variance) args distinct none none

def regr_avgx (args : List DF.Expr) (distinct : Bool) : DF.Expr :=
  DF.Expr.aggregateFunction (DF.AggregateFunctionDefinition.builtIn DF.AggregateFunction.RegrAvgx) args distinct none none

def regr_avgy (args : List DF.Expr) (distinct : Bool) : DF.Expr :=
  DF.Expr.aggregateFunction (DF.AggregateFunctionDefinition.builtIn DF.AggregateFunction.RegrAvgy) args distinct none none

def regr_count (args : List DF.Expr) (distinct : Bool) : DF.Expr :=
  DF.Expr.aggregateFunction (DF.AggregateFunctionDefinition.builtIn DF.AggregateFunction.RegrCount) args distinct none none

def regr_intercept (args : List DF.Expr) (distinct : Bool) : DF.Expr :=
  DF.Expr.aggregateFunction (DF.AggregateFunctionDefinition.builtIn DF.AggregateFunction.RegrIntercept) args distinct none none

def regr_r2 (args : List DF.Expr) (distinct : Bool) : DF.Expr :=
  DF.Expr.aggregateFunction (DF.AggregateFunctionDefinition.builtIn DF.AggregateFunction.RegrR2) args distinct none none

def regr_slope (args : List DF.Expr) (distinct : Bool) : DF.Expr :=
  DF.Expr.aggregateFunction (DF.AggregateFunctionDefinition.builtIn DF.AggregateFunction.RegrSlope) args distinct none none

def regr_sxx (args : List DF.Expr) (distinct : Bool) : DF.Expr :=
  DF.Expr.aggregateFunction (DF.AggregateFunctionDefinition.builtIn DF.AggregateFunction.RegrSXX) args distinct none none

def regr_sxy (args : List DF.Expr) (distinct : Bool) : DF.Expr :=
  DF.Expr.aggregateFunction (DF.AggregateFunctionDefinition.builtIn DF.AggregateFunction.RegrSXY) args distinct none none

def regr_syy (args : List DF.Expr) (distinct : Bool) : DF.Expr :=
  DF.Expr.aggregateFunction (DF.AggregateFunctionDefinition.builtIn DF.AggregateFunction.RegrSYY) args distinct none none

def first_value (args : List DF.Expr) (distinct : Bool) : DF.Expr :=
  DF.Expr.aggregateFunction (DF.AggregateFunctionDefinition.builtIn DF.AggregateFunction.FirstValue) args distinct none none

def last_value (args : List DF.Expr) (distinct : Bool) : DF.Expr :=
  DF.Expr.aggregateFunction (DF.AggregateFunctionDefinition.builtIn DF.AggregateFunction.LastValue) args distinct none none

def bit_and (args : List DF.Expr) (distinct : Bool) : DF.Expr :=
  DF.Expr.aggregateFunction (DF.AggregateFunctionDefinition.builtIn DF.AggregateFunction.BitAnd) args distinct none none

def bit_or (args : List DF.Expr) (distinct : Bool) : DF.Expr :=
  DF.Expr.aggregateFunction (DF.AggregateFunctionDefinition.builtIn DF.AggregateFunction.BitOr) args distinct none none

def bit_xor (args : List DF.Expr) (distinct : Bool) : DF.Expr :=
  DF.Expr.aggregateFunction (DF.AggregateFunctionDefinition.builtIn DF.AggregateFunction.BitXor) args distinct none none

def bool_and (args : List DF.Expr) (distinct : Bool) : DF.Expr :=
  DF.Expr.aggregateFunction (DF.AggregateFunctionDefinition.builtIn DF.AggregateFunction.BoolAnd) args distinct none none

def bool_or (args : List DF.Expr) (distinct : Bool) : DF.Expr :=
  DF.Expr.aggregateFunction (DF.AggregateFunctionDefinition.builtIn DF.AggregateFunction.BoolOr) args distinct none none

/-- Modelled from the spec: how a Python-level call supplies the optional
distinct flag of an aggregate constructor, whose signature is
(*args, distinct=false): an omitted flag arrives as false. -/
def aggregate_call (build : List DF.Expr → Bool → DF.Expr)
    (args : List DF.Expr) (distinct : Option Bool) : DF.Expr :=
  build args (distinct.getD false)

end functions

/-- Modelled from the spec: downstream evaluation of a membership predicate.
Given an evaluator assigning a scalar value to every expression at the
current row, an InList node evaluates to membership of the operand's value
among the candidate values, negated when the flag is set; nodes that are
not membership predicates have no such evaluation. -/
def inListEval (evalE : DF.Expr → DF.ScalarValue) : DF.Expr → Option Bool
  | DF.Expr.inList e vs negated =>
      some (if negated then !(vs.any fun v => evalE e == evalE v)
            else vs.any fun v => evalE e == evalE v)
  | _ => none

/-- Correctness shape of one scalar constructor: for every argument list it
builds the ScalarFunctionCall carrying the given resolved tag and the
argument list unchanged. -/
def sfOk (build : List DF.Expr → DF.Expr) (tag : DF.BuiltinScalarFunction) : Prop :=
  ∀ args : List DF.Expr,
    build args = DF.Expr.scalarFunction (DF.ScalarFunctionDefinition.builtIn tag) args

/-- Correctness shape of one aggregate constructor: for every argument list
and distinct flag it builds the AggregateFunctionCall carrying the given
resolved tag, the supplied arguments and flag, with filter and ordering
unset; and a call that omits the optional flag builds the same node as one
passing false. -/
def agOk (build : List DF.Expr → Bool → DF.Expr) (tag : DF.AggregateFunction) : Prop :=
  (∀ (args : List DF.Expr) (distinct : Bool),
      build args distinct =
        DF.Expr.aggregateFunction (DF.AggregateFunctionDefinition.builtIn tag)
          args distinct none none)
  ∧ ∀ args : List DF.Expr, functions.aggregate_call build args none = build args false

/-- C1: for every argument list, each aliased constructor builds a node
identical to the one its canonical constructor builds: `length`,
`char_length` and `character_length` all produce the same ScalarFunctionCall
as `character_length`; `pow` the same as `power`; `array_push_back`,
`list_append` and `list_push_back` the same as `array_append`. -/
theorem alias_constructors_build_identical_nodes :
    ∀ args : List DF.Expr,
      functions.length args = functions.character_length args
      ∧ functions.char_length args = functions.character_length args
      ∧ functions.pow args = functions.power args
      ∧ functions.array_push_back args = functions.array_append args
      ∧ functions.list_append args = functions.array_append args
      ∧ functions.list_push_back args = functions.array_append args :=
  fun _ => ⟨rfl, rfl, rfl, rfl, rfl, rfl⟩

/-- C4: `count_star` builds exactly the builtin Count aggregate over the
literal 1, not distinct, with no filter and no ordering, and coincides with
what the `count` aggregate constructor builds over the literal 1 with
distinct false. -/
theorem count_star_is_count_of_literal_one :
    functions.count_star =
      DF.Expr.aggregateFunction
        (DF.AggregateFunctionDefinition.builtIn DF.AggregateFunction.Count)
        [DF.lit 1] false none none
    ∧ functions.count_star = functions.count [DF.lit 1] false :=
  ⟨rfl, rfl⟩

/-- C7: each omitted flag of `order_by` independently defaults to true, so
`order_by e none none` builds the same Sort node as
`order_by e (some true) (some true)`. -/
theorem order_by_omitted_flags_default_true (e : DF.Expr) :
    functions.order_by e none none = functions.order_by e (some true) (some true)
    ∧ (∀ f : Option Bool, functions.order_by e none f = functions.order_by e (some true) f)
    ∧ (∀ a : Option Bool, functions.order_by e a none = functions.order_by e a (some true)) :=
  ⟨rfl, fun _ => rfl, fun _ => rfl⟩

/-- Helper for C8: no expression node equals its own strict Alias wrapper. -/
theorem expr_alias_ne_self (e : DF.Expr) (r : Option DF.TableReference)
    (n : String) : DF.Expr.alias e r n ≠ e := by
  intro h
  have hs := congrArg sizeOf h
  simp at hs
  omega

/-- C8: aliasing never deduplicates: aliasing an already-aliased expression
yields the nested node Alias(Alias(e, a), b) with no table qualification,
and never the single node Alias(e, b) with the name replaced. -/
theorem alias_nests_never_replaces (e : DF.Expr) (a b : String) :
    functions.«alias» (functions.«alias» e a) b =
      DF.Expr.alias (DF.Expr.alias e none a) none b
    ∧ functions.«alias» (functions.«alias» e a) b ≠ functions.«alias» e b := by
  refine ⟨rfl, ?_⟩
  intro h
  have h2 : DF.Expr.alias (DF.Expr.alias e none a) none b =
      DF.Expr.alias e none b := h
  injection h2 with h3 h4 h5
  exact expr_alias_ne_self e none a h3

/-- C9: the predicate built by `in_list(x, [], false)` always evaluates to
false and the one built by `in_list(x, [], true)` always evaluates to true;
for every value list, the negated predicate evaluates to the boolean
negation of the corresponding membership test. -/
theorem in_list_membership_semantics (evalE : DF.Expr → DF.ScalarValue)
    (x : DF.Expr) :
    inListEval evalE (functions.in_list x [] false) = some false
    ∧ inListEval evalE (functions.in_list x [] true) = some true
    ∧ ∀ vs : List DF.Expr,
        inListEval evalE (functions.in_list x vs true) =
          (inListEval evalE (functions.in_list x vs false)).map (fun r => !r) := by
  refine ⟨rfl, rfl, ?_⟩
  intro vs
  simp [functions.in_list, DF.in_list, inListEval]

/-- C2: window resolution tries tiers in order with first match winning:
a name in the builtin window-function set resolves to that builtin
definition regardless of the session handle; otherwise a user-defined
aggregate registered under the name in the supplied session resolves,
adapted as a window definition; otherwise `window` fails with the
window-function-not-found error. -/
theorem window_resolution_order (name : String) (args : List DF.Expr)
    (pb ob : Option (List DF.Expr)) (wf : Option DF.WindowFrame)
    (ctx : Option functions.SessionContext) :
    (∀ d, DF.find_df_window_func name = some d →
        functions.window name args pb ob wf ctx =
          Except.ok (DF.Expr.windowFunction d args (pb.getD []) (ob.getD [])
            (wf.getD functions.defaultWindowFrame)))
    ∧ (DF.find_df_window_func name = none →
        ∀ c u, ctx = some c → c.udaf name = Except.ok u →
          functions.window name args pb ob wf ctx =
            Except.ok (DF.Expr.windowFunction
              (DF.WindowFunctionDefinition.aggregateUDF u) args
              (pb.getD []) (ob.getD []) (wf.getD functions.defaultWindowFrame)))
    ∧ (DF.find_df_window_func name = none →
        (∀ c, ctx = some c → ∀ u, c.udaf name ≠ Except.ok u) →
        functions.window name args pb ob wf ctx =
          Except.error (functions.DataFusionError.Common ("window function not found"))) := by
  refine ⟨?_, ?_, ?_⟩
  · intro d hd
    simp [functions.window, hd, Option.orElse]
  · intro hn c u hc hu
    subst hc
    simp [functions.window, hn, hu, Option.orElse, Except.toOption, Except.map]
  · intro hn hfail
    cases ctx with
    | none => simp [functions.window, hn, Option.orElse]
    | some c =>
        cases hu : c.udaf name with
        | ok u => exact absurd hu (hfail c rfl u)
        | error err =>
            simp [functions.window, hn, hu, Option.orElse, Except.toOption, Except.map]

/-- Witness for C2: the builtin name row_number resolves at tier one, a
registered user aggregate resolves at tier two, and an unknown name fails. -/
theorem window_resolution_order_witness :
    functions.window ("row_number") [] none none none none =
      Except.ok (DF.Expr.windowFunction
        (DF.WindowFunctionDefinition.builtInWindowFunction
          DF.BuiltInWindowFunction.RowNumber)
        [] [] [] functions.defaultWindowFrame)
    ∧ functions.window ("my_udaf") [] none none none
        (some { udafs := [(("my_udaf"), { name := ("my_udaf") })] }) =
      Except.ok (DF.Expr.windowFunction
        (DF.WindowFunctionDefinition.aggregateUDF { name := ("my_udaf") })
        [] [] [] functions.defaultWindowFrame)
    ∧ functions.window ("not_a_real_fn") [] none none none none =
      Except.error (functions.DataFusionError.Common ("window function not found")) := by
  refine ⟨?_, ?_, ?_⟩
  · exact (window_resolution_order ("row_number") [] none none none none).1 _ rfl
  · exact (window_resolution_order ("my_udaf") [] none none none
      (some { udafs := [(("my_udaf"), { name := ("my_udaf") })] })).2.1
      rfl _ _ rfl rfl
  · exact (window_resolution_order ("not_a_real_fn") [] none none none none).2.2
      rfl (fun c hc => nomatch hc)

/-- C3: whenever `window` succeeds with no partition-by, no order-by and no
frame supplied, the returned node has an empty partition list, an empty
order list, and the default resolved frame: unit ROWS, start an unspecified
(unbounded) preceding bound, end a following bound at offset 0 (the current
row). -/
theorem window_success_applies_defaults (name : String) (args : List DF.Expr)
    (ctx : Option functions.SessionContext) (e : DF.Expr)
    (h : functions.window name args none none none ctx = Except.ok e) :
    ∃ d, e = DF.Expr.windowFunction d args [] []
      { units := DF.WindowFrameUnits.Rows
        startBound := DF.WindowFrameBound.Preceding none
        endBound := DF.WindowFrameBound.Following (some 0) } := by
  unfold functions.window at h
  cases hf : (DF.find_df_window_func name).orElse (fun _ =>
      Option.bind ctx fun c =>
        Except.toOption ((c.udaf name).map DF.WindowFunctionDefinition.aggregateUDF)) with
  | none => rw [hf] at h; exact absurd h (by simp)
  | some d =>
      rw [hf] at h
      refine ⟨d, ?_⟩
      have he := Except.ok.inj h
      rw [← he]
      rfl

/-- Witness for C3: the builtin name rank with all optional inputs absent
yields the node whose defaults the theorem describes. -/
theorem window_success_applies_defaults_witness :
    ∃ d, DF.Expr.windowFunction
        (DF.WindowFunctionDefinition.builtInWindowFunction DF.BuiltInWindowFunction.Rank)
        [] [] [] functions.defaultWindowFrame
      = DF.Expr.windowFunction d [] [] []
        { units := DF.WindowFrameUnits.Rows
          startBound := DF.WindowFrameBound.Preceding none
          endBound := DF.WindowFrameBound.Following (some 0) } :=
  window_success_applies_defaults ("rank") [] none _ rfl

/-- C10: when no session handle is supplied, the user registry is never
consulted: every name outside the builtin window-function set makes
`window` fail with the window-function-not-found error, whatever the other
inputs. -/
theorem window_no_ctx_unknown_name_fails (name : String) (args : List DF.Expr)
    (pb ob : Option (List DF.Expr)) (wf : Option DF.WindowFrame)
    (h : DF.find_df_window_func name = none) :
    functions.window name args pb ob wf none =
      Except.error (functions.DataFusionError.Common ("window function not found")) := by
  simp [functions.window, h, Option.orElse]

/-- Witness for C10: the name my_udaf is outside the builtin set (even
though a session registry could hold it) and fails when no session handle
is passed. -/
theorem window_no_ctx_unknown_name_fails_witness :
    functions.window ("my_udaf") [] none none none none =
      Except.error (functions.DataFusionError.Common ("window function not found")) :=
  window_no_ctx_unknown_name_fails ("my_udaf") [] none none none rfl

/-- C5: every scalar constructor in the catalog, for every argument list,
builds a ScalarFunctionCall carrying its resolved operation tag and an
argument list identical, element for element and in order, to the list
supplied by the caller. -/
theorem scalar_catalog_preserves_tag_and_args :
    sfOk functions.abs DF.BuiltinScalarFunction.Abs
    ∧ sfOk functions.acos DF.BuiltinScalarFunction.Acos
    ∧ sfOk functions.acosh DF.BuiltinScalarFunction.Acosh
    ∧ sfOk functions.ascii DF.BuiltinScalarFunction.Ascii
    ∧ sfOk functions.asin DF.BuiltinScalarFunction.Asin
    ∧ sfOk functions.asinh DF.BuiltinScalarFunction.Asinh
    ∧ sfOk functions.atan DF.BuiltinScalarFunction.Atan
    ∧ sfOk functions.atanh DF.BuiltinScalarFunction.Atanh
    ∧ sfOk functions.atan2 DF.BuiltinScalarFunction.Atan2
    ∧ sfOk functions.bit_length DF.BuiltinScalarFunction.BitLength
    ∧ sfOk functions.btrim DF.BuiltinScalarFunction.Btrim
    ∧ sfOk functions.cbrt DF.BuiltinScalarFunction.Cbrt
    ∧ sfOk functions.ceil DF.BuiltinScalarFunction.Ceil
    ∧ sfOk functions.character_length DF.BuiltinScalarFunction.CharacterLength
    ∧ sfOk functions.length DF.BuiltinScalarFunction.CharacterLength
    ∧ sfOk functions.char_length DF.BuiltinScalarFunction.CharacterLength
    ∧ sfOk functions.chr DF.BuiltinScalarFunction.Chr
    ∧ sfOk functions.coalesce DF.BuiltinScalarFunction.Coalesce
    ∧ sfOk functions.cos DF.BuiltinScalarFunction.Cos
    ∧ sfOk functions.cosh DF.BuiltinScalarFunction.Cosh
    ∧ sfOk functions.degrees DF.BuiltinScalarFunction.Degrees
    ∧ sfOk functions.exp DF.BuiltinScalarFunction.Exp
    ∧ sfOk functions.factorial DF.BuiltinScalarFunction.Factorial
    ∧ sfOk functions.floor DF.BuiltinScalarFunction.Floor
    ∧ sfOk functions.gcd DF.BuiltinScalarFunction.Gcd
    ∧ sfOk functions.initcap DF.BuiltinScalarFunction.InitCap
    ∧ sfOk functions.iszero DF.BuiltinScalarFunction.Iszero
    ∧ sfOk functions.lcm DF.BuiltinScalarFunction.Lcm
    ∧ sfOk functions.left DF.BuiltinScalarFunction.Left
    ∧ sfOk functions.ln DF.BuiltinScalarFunction.Ln
    ∧ sfOk functions.log DF.BuiltinScalarFunction.Log
    ∧ sfOk functions.log10 DF.BuiltinScalarFunction.Log10
    ∧ sfOk functions.log2 DF.BuiltinScalarFunction.Log2
    ∧ sfOk functions.lower DF.BuiltinScalarFunction.Lower
    ∧ sfOk functions.lpad DF.BuiltinScalarFunction.Lpad
    ∧ sfOk functions.ltrim DF.BuiltinScalarFunction.Ltrim
    ∧ sfOk functions.md5 DF.BuiltinScalarFunction.MD5
    ∧ sfOk functions.nanvl DF.BuiltinScalarFunction.Nanvl
    ∧ sfOk functions.octet_length DF.BuiltinScalarFunction.OctetLength
    ∧ sfOk functions.pi DF.BuiltinScalarFunction.Pi
    ∧ sfOk functions.power DF.BuiltinScalarFunction.Power
    ∧ sfOk functions.pow DF.BuiltinScalarFunction.Power
    ∧ sfOk functions.radians DF.BuiltinScalarFunction.Radians
    ∧ sfOk functions.regexp_match DF.BuiltinScalarFunction.RegexpMatch
    ∧ sfOk functions.regexp_replace DF.BuiltinScalarFunction.RegexpReplace
    ∧ sfOk functions.«repeat» DF.BuiltinScalarFunction.Repeat
    ∧ sfOk functions.replace DF.BuiltinScalarFunction.Replace
    ∧ sfOk functions.reverse DF.BuiltinScalarFunction.Reverse
    ∧ sfOk functions.right DF.BuiltinScalarFunction.Right
    ∧ sfOk functions.round DF.BuiltinScalarFunction.Round
    ∧ sfOk functions.rpad DF.BuiltinScalarFunction.Rpad
    ∧ sfOk functions.rtrim DF.BuiltinScalarFunction.Rtrim
    ∧ sfOk functions.sha224 DF.BuiltinScalarFunction.SHA224
    ∧ sfOk functions.sha256 DF.BuiltinScalarFunction.SHA256
    ∧ sfOk functions.sha384 DF.BuiltinScalarFunction.SHA384
    ∧ sfOk functions.sha512 DF.BuiltinScalarFunction.SHA512
    ∧ sfOk functions.signum DF.BuiltinScalarFunction.Signum
    ∧ sfOk functions.sin DF.BuiltinScalarFunction.Sin
    ∧ sfOk functions.sinh DF.BuiltinScalarFunction.Sinh
    ∧ sfOk functions.split_part DF.BuiltinScalarFunction.SplitPart
    ∧ sfOk functions.sqrt DF.BuiltinScalarFunction.Sqrt
    ∧ sfOk functions.starts_with DF.BuiltinScalarFunction.StartsWith
    ∧ sfOk functions.strpos DF.BuiltinScalarFunction.Strpos
    ∧ sfOk functions.substr DF.BuiltinScalarFunction.Substr
    ∧ sfOk functions.tan DF.BuiltinScalarFunction.Tan
    ∧ sfOk functions.tanh DF.BuiltinScalarFunction.Tanh
    ∧ sfOk functions.to_hex DF.BuiltinScalarFunction.ToHex
    ∧ sfOk functions.now DF.BuiltinScalarFunction.Now
    ∧ sfOk functions.to_timestamp DF.BuiltinScalarFunction.ToTimestamp
    ∧ sfOk functions.to_timestamp_millis DF.BuiltinScalarFunction.ToTimestampMillis
    ∧ sfOk functions.to_timestamp_micros DF.BuiltinScalarFunction.ToTimestampMicros
    ∧ sfOk functions.to_timestamp_seconds DF.BuiltinScalarFunction.ToTimestampSeconds
    ∧ sfOk functions.current_date DF.BuiltinScalarFunction.CurrentDate
    ∧ sfOk functions.current_time DF.BuiltinScalarFunction.CurrentTime
    ∧ sfOk functions.datepart DF.BuiltinScalarFunction.DatePart
    ∧ sfOk functions.date_part DF.BuiltinScalarFunction.DatePart
    ∧ sfOk functions.date_trunc DF.BuiltinScalarFunction.DateTrunc
    ∧ sfOk functions.datetrunc DF.BuiltinScalarFunction.DateTrunc
    ∧ sfOk functions.date_bin DF.BuiltinScalarFunction.DateBin
    ∧ sfOk functions.translate DF.BuiltinScalarFunction.Translate
    ∧ sfOk functions.trim DF.BuiltinScalarFunction.Trim
    ∧ sfOk functions.trunc DF.BuiltinScalarFunction.Trunc
    ∧ sfOk functions.upper DF.BuiltinScalarFunction.Upper
    ∧ sfOk functions.make_array DF.BuiltinScalarFunction.MakeArray
    ∧ sfOk functions.array DF.BuiltinScalarFunction.MakeArray
    ∧ sfOk functions.range DF.BuiltinScalarFunction.Range
    ∧ sfOk functions.uuid DF.BuiltinScalarFunction.Uuid
    ∧ sfOk functions.struct DF.BuiltinScalarFunction.Struct
    ∧ sfOk functions.from_unixtime DF.BuiltinScalarFunction.FromUnixtime
    ∧ sfOk functions.arrow_typeof DF.BuiltinScalarFunction.ArrowTypeof
    ∧ sfOk functions.random DF.BuiltinScalarFunction.Random
    ∧ sfOk functions.array_append DF.BuiltinScalarFunction.ArrayAppend
    ∧ sfOk functions.array_push_back DF.BuiltinScalarFunction.ArrayAppend
    ∧ sfOk functions.list_append DF.BuiltinScalarFunction.ArrayAppend
    ∧ sfOk functions.list_push_back DF.BuiltinScalarFunction.ArrayAppend
    ∧ sfOk functions.array_concat DF.BuiltinScalarFunction.ArrayConcat
    ∧ sfOk functions.array_cat DF.BuiltinScalarFunction.ArrayConcat
    ∧ sfOk functions.array_dims DF.BuiltinScalarFunction.ArrayDims
    ∧ sfOk functions.array_distinct DF.BuiltinScalarFunction.ArrayDistinct
    ∧ sfOk functions.list_distinct DF.BuiltinScalarFunction.ArrayDistinct
    ∧ sfOk functions.list_dims DF.BuiltinScalarFunction.ArrayDims
    ∧ sfOk functions.array_element DF.BuiltinScalarFunction.ArrayElement
    ∧ sfOk functions.array_extract DF.BuiltinScalarFunction.ArrayElement
    ∧ sfOk functions.list_element DF.BuiltinScalarFunction.ArrayElement
    ∧ sfOk functions.list_extract DF.BuiltinScalarFunction.ArrayElement
    ∧ sfOk functions.array_length DF.BuiltinScalarFunction.ArrayLength
    ∧ sfOk functions.list_length DF.BuiltinScalarFunction.ArrayLength
    ∧ sfOk functions.array_has DF.BuiltinScalarFunction.ArrayHas
    ∧ sfOk functions.array_has_all DF.BuiltinScalarFunction.ArrayHasAll
    ∧ sfOk functions.array_has_any DF.BuiltinScalarFunction.ArrayHasAny
    ∧ sfOk functions.array_position DF.BuiltinScalarFunction.ArrayPosition
    ∧ sfOk functions.array_indexof DF.BuiltinScalarFunction.ArrayPosition
    ∧ sfOk functions.list_position DF.BuiltinScalarFunction.ArrayPosition
    ∧ sfOk functions.list_indexof DF.BuiltinScalarFunction.ArrayPosition
    ∧ sfOk functions.array_positions DF.BuiltinScalarFunction.ArrayPositions
    ∧ sfOk functions.list_positions DF.BuiltinScalarFunction.ArrayPositions
    ∧ sfOk functions.array_ndims DF.BuiltinScalarFunction.ArrayNdims
    ∧ sfOk functions.list_ndims DF.BuiltinScalarFunction.ArrayNdims
    ∧ sfOk functions.array_prepend DF.BuiltinScalarFunction.ArrayPrepend
    ∧ sfOk functions.array_push_front DF.BuiltinScalarFunction.ArrayPrepend
    ∧ sfOk functions.list_prepend DF.BuiltinScalarFunction.ArrayPrepend
    ∧ sfOk functions.list_push_front DF.BuiltinScalarFunction.ArrayPrepend
    ∧ sfOk functions.array_pop_back DF.BuiltinScalarFunction.ArrayPopBack
    ∧ sfOk functions.array_pop_front DF.BuiltinScalarFunction.ArrayPopFront
    ∧ sfOk functions.array_remove DF.BuiltinScalarFunction.ArrayRemove
    ∧ sfOk functions.list_remove DF.BuiltinScalarFunction.ArrayRemove
    ∧ sfOk functions.array_remove_n DF.BuiltinScalarFunction.ArrayRemoveN
    ∧ sfOk functions.list_remove_n DF.BuiltinScalarFunction.ArrayRemoveN
    ∧ sfOk functions.array_remove_all DF.BuiltinScalarFunction.ArrayRemoveAll
    ∧ sfOk functions.list_remove_all DF.BuiltinScalarFunction.ArrayRemoveAll
    ∧ sfOk functions.array_repeat DF.BuiltinScalarFunction.ArrayRepeat
    ∧ sfOk functions.array_replace DF.BuiltinScalarFunction.ArrayReplace
    ∧ sfOk functions.list_replace DF.BuiltinScalarFunction.ArrayReplace
    ∧ sfOk functions.array_replace_n DF.BuiltinScalarFunction.ArrayReplaceN
    ∧ sfOk functions.list_replace_n DF.BuiltinScalarFunction.ArrayReplaceN
    ∧ sfOk functions.array_replace_all DF.BuiltinScalarFunction.ArrayReplaceAll
    ∧ sfOk functions.list_replace_all DF.BuiltinScalarFunction.ArrayReplaceAll
    ∧ sfOk functions.array_slice DF.BuiltinScalarFunction.ArraySlice
    ∧ sfOk functions.list_slice DF.BuiltinScalarFunction.ArraySlice
    ∧ sfOk functions.array_intersect DF.BuiltinScalarFunction.ArrayIntersect
    ∧ sfOk functions.list_intersect DF.BuiltinScalarFunction.ArrayIntersect
    ∧ sfOk functions.array_union DF.BuiltinScalarFunction.ArrayUnion
    ∧ sfOk functions.list_union DF.BuiltinScalarFunction.ArrayUnion
    ∧ sfOk functions.array_except DF.BuiltinScalarFunction.ArrayExcept
    ∧ sfOk functions.list_except DF.BuiltinScalarFunction.ArrayExcept
    ∧ sfOk functions.array_resize DF.BuiltinScalarFunction.ArrayResize
    ∧ sfOk functions.list_resize DF.BuiltinScalarFunction.ArrayResize
    ∧ sfOk functions.flatten DF.BuiltinScalarFunction.Flatten := by
  repeat' apply And.intro
  all_goals exact fun args => rfl

/-- C6: every aggregate constructor in the catalog, for every argument list
and every value of the optional distinct flag (false when omitted), builds
an AggregateFunctionCall carrying the supplied arguments and flag with
filter and ordering unset. -/
theorem aggregate_catalog_preserves_args_and_flag :
    agOk functions.approx_distinct DF.AggregateFunction.ApproxDistinct
    ∧ agOk functions.approx_median DF.AggregateFunction.ApproxMedian
    ∧ agOk functions.approx_percentile_cont DF.AggregateFunction.ApproxPercentileCont
    ∧ agOk functions.approx_percentile_cont_with_weight DF.AggregateFunction.ApproxPercentileContWithWeight
    ∧ agOk functions.array_agg DF.AggregateFunction.ArrayAgg
    ∧ agOk functions.avg DF.AggregateFunction.Avg
    ∧ agOk functions.corr DF.AggregateFunction.Correlation
    ∧ agOk functions.count DF.AggregateFunction.Count
    ∧ agOk functions.covar DF.AggregateFunction.Covariance
    ∧ agOk functions.covar_pop DF.AggregateFunction.CovariancePop
    ∧ agOk functions.covar_samp DF.AggregateFunction.Covariance
    ∧ agOk functions.grouping DF.AggregateFunction.Grouping
    ∧ agOk functions.max DF.AggregateFunction.Max
    ∧ agOk functions.mean DF.AggregateFunction.Avg
    ∧ agOk functions.median DF.AggregateFunction.Median
    ∧ agOk functions.min DF.AggregateFunction.Min
    ∧ agOk functions.sum DF.AggregateFunction.Sum
    ∧ agOk functions.stddev DF.AggregateFunction.Stddev
    ∧ agOk functions.stddev_pop DF.AggregateFunction.StddevPop
    ∧ agOk functions.stddev_samp DF.AggregateFunction.Stddev
    ∧ agOk functions.var DF.AggregateFunction.Variance
    ∧ agOk functions.var_pop DF.AggregateFunction.VariancePop
    ∧ agOk functions.var_samp DF.AggregateFunction.Variance
    ∧ agOk functions.regr_avgx DF.AggregateFunction.RegrAvgx
    ∧ agOk functions.regr_avgy DF.AggregateFunction.RegrAvgy
    ∧ agOk functions.regr_count DF.AggregateFunction.RegrCount
    ∧ agOk functions.regr_intercept DF.AggregateFunction.RegrIntercept
    ∧ agOk functions.regr_r2 DF.AggregateFunction.RegrR2
    ∧ agOk functions.regr_slope DF.AggregateFunction.RegrSlope
    ∧ agOk functions.regr_sxx DF.AggregateFunction.RegrSXX
    ∧ agOk functions.regr_sxy DF.AggregateFunction.RegrSXY
    ∧ agOk functions.regr_syy DF.AggregateFunction.RegrSYY
    ∧ agOk functions.first_value DF.AggregateFunction.FirstValue
    ∧ agOk functions.last_value DF.AggregateFunction.LastValue
    ∧ agOk functions.bit_and DF.AggregateFunction.BitAnd
    ∧ agOk functions.bit_or DF.AggregateFunction.BitOr
    ∧ agOk functions.bit_xor DF.AggregateFunction.BitXor
    ∧ agOk functions.bool_and DF.AggregateFunction.BoolAnd
    ∧ agOk functions.bool_or DF.AggregateFunction.BoolOr := by
  repeat' apply And.intro
  all_goals first
    | exact fun args distinct => rfl
    | exact fun args => rfl
